import Mathlib

/-
Verification of the SSO authentication broker of Video-Download-to-NAS
(backend/app/sso/security.py, backend/app/sso/user_management.py,
backend/app/sso.py and the provider client classes under backend/app/sso/).

Modelling conventions of this shallow embedding:
- Time is a `Nat` counted in seconds; `datetime.now()` is an explicit `now`
  parameter.  The 10-minute state lifetime is `stateLifetime = 600`.
- A database table is a `List` of row structures in insertion order;
  SQLAlchemy `query(...).filter(...).first()` is `List.find?`, `delete` of a
  fetched row removes the first matching row, a bulk `filter(...).delete()`
  is `List.filter` plus a `countP`, mutating a fetched row and committing
  replaces the first matching row in place.
- Randomness drawn inside a function (`secrets.token_urlsafe`,
  `random.choices`, the hashed random password) is passed in as explicit
  parameters.
- Python exceptions become explicit error values; a function that both
  raises and commits returns the outcome together with the resulting table.
-/

namespace VDN

/-- Remove the first element satisfying `p` (the effect of fetching a row
with `.first()` and calling `db.delete(row)` on it). -/
def eraseFirstP {α : Type} (p : α → Bool) : List α → List α
  | [] => []
  | x :: xs => if p x then xs else x :: eraseFirstP p xs

/-- Replace the first element satisfying `p` by its image under `f` (the
effect of mutating a row fetched with `.first()` and committing). -/
def updateFirstP {α : Type} (p : α → Bool) (f : α → α) : List α → List α
  | [] => []
  | x :: xs => if p x then f x :: xs else x :: updateFirstP p f xs

theorem eraseFirstP_append_left {α : Type} (p : α → Bool) (l1 l2 : List α)
    (h : ∀ x ∈ l1, p x = false) :
    eraseFirstP p (l1 ++ l2) = l1 ++ eraseFirstP p l2 := by
  induction l1 with
  | nil => rfl
  | cons x xs ih =>
    have hx : p x = false := h x (List.mem_cons_self x xs)
    simp only [List.cons_append, eraseFirstP, hx, Bool.false_eq_true, if_false,
      List.cons.injEq, true_and]
    exact ih (fun y hy => h y (List.mem_cons_of_mem x hy))

theorem updateFirstP_length {α : Type} (p : α → Bool) (f : α → α) (l : List α) :
    (updateFirstP p f l).length = l.length := by
  induction l with
  | nil => rfl
  | cons x xs ih =>
    by_cases hx : p x = true
    · simp [updateFirstP, hx]
    · simp [updateFirstP, hx, ih]

theorem mem_updateFirstP_of_find? {α : Type} (p : α → Bool) (f : α → α)
    (l : List α) (u : α) (h : l.find? p = some u) :
    ∀ v ∈ updateFirstP p f l, v = f u ∨ v ∈ l := by
  induction l with
  | nil => simp [List.find?] at h
  | cons x xs ih =>
    intro v hv
    by_cases hx : p x = true
    · rw [List.find?_cons_of_pos _ hx] at h
      obtain rfl : x = u := Option.some.inj h
      simp only [updateFirstP, hx, if_true, List.mem_cons] at hv
      rcases hv with hv | hv
      · exact Or.inl hv
      · exact Or.inr (List.mem_cons_of_mem x hv)
    · rw [List.find?_cons_of_neg _ (by simpa using hx)] at h
      simp only [updateFirstP, hx, if_false] at hv
      rcases List.mem_cons.mp hv with hv | hv
      · exact Or.inr (hv ▸ List.mem_cons_self x xs)
      · rcases ih h v hv with h1 | h1
        · exact Or.inl h1
        · exact Or.inr (List.mem_cons_of_mem x h1)

theorem countP_add_countP_not {α : Type} (p : α → Bool) (l : List α) :
    l.countP p + l.countP (fun a => !p a) = l.length := by
  induction l with
  | nil => rfl
  | cons x xs ih =>
    by_cases hx : p x = true <;>
      simp only [List.countP_cons, hx, Bool.not_true, Bool.not_false,
        if_true, if_false, Bool.false_eq_true, List.length_cons] <;>
      omega

/-! ## State store (backend/app/sso/security.py, `sso_states` table) -/

/-- A row of the `sso_states` table (`SSOState` in backend/app/database.py). -/
structure SSOState where
  state : String
  provider : String
  user_id : Option Int
  created_at : Nat
  expires_at : Nat
deriving DecidableEq

/-- The state lifetime: `timedelta(minutes=10)`, in seconds. -/
def stateLifetime : Nat := 600

/-- `generate_state(db, provider, user_id)`: persist a fresh random token
bound to the provider and an optional linking user id, expiring 10 minutes
from now, and return it.  The random token drawn by
`secrets.token_urlsafe(32)` is the `token` parameter. -/
def generate_state (db : List SSOState) (provider : String)
    (user_id : Option Int) (token : String) (now : Nat) :
    String × List SSOState :=
  (token,
   db ++ [{ state := token, provider := provider, user_id := user_id,
            created_at := now, expires_at := now + stateLifetime }])

/-- Outcome of `verify_state`: the stored linking user id on success, or the
two `HTTPException(400, ...)` classes the function raises. -/
inductive VerifyOutcome where
  | ok (user_id : Option Int)
  | invalidState
  | expiredState
deriving DecidableEq

/-- `verify_state(db, state, provider)`: look up the row with this token and
provider; absent ⇒ invalid-state error; expired (`expires_at < now`) ⇒ the
row is deleted and an expired-state error raised; otherwise the row is
deleted (one-time use) and the stored `user_id` returned.  The function
returns the outcome together with the resulting table. -/
def verify_state (db : List SSOState) (state provider : String) (now : Nat) :
    VerifyOutcome × List SSOState :=
  match db.find? (fun s => s.state == state && s.provider == provider) with
  | none => (.invalidState, db)
  | some s =>
    if s.expires_at < now then
      (.expiredState,
       eraseFirstP (fun r => r.state == state && r.provider == provider) db)
    else
      (.ok s.user_id,
       eraseFirstP (fun r => r.state == state && r.provider == provider) db)

/-- `cleanup_expired_states(db)`: bulk-delete every row with
`expires_at < now`; returns the deleted count and the resulting table. -/
def cleanup_expired_states (db : List SSOState) (now : Nat) :
    Nat × List SSOState :=
  (db.countP (fun s => decide (s.expires_at < now)),
   db.filter (fun s => ! decide (s.expires_at < now)))

/-- Claim C1: a token stored by `generate_state` is verified successfully by
the first `verify_state` call with the matching provider made at or before
its expiry; that call returns the stored linking user id and deletes the
row, so the table reverts to its pre-mint contents; any subsequent
`verify_state` call with the same token (on the resulting table, for any
provider and any time) fails with the invalid-state error and no token is
ever successfully verified twice. -/
theorem state_single_use (db : List SSOState) (provider : String)
    (user_id : Option Int) (token : String) (now t1 t2 : Nat) (p2 : String)
    (hfresh : ∀ r ∈ db, r.state ≠ token)
    (hnotexp : ¬ (now + stateLifetime < t1)) :
    verify_state (generate_state db provider user_id token now).2
      token provider t1 = (.ok user_id, db) ∧
    verify_state db token p2 t2 = (.invalidState, db) := by
  have hpred : ∀ r ∈ db,
      (r.state == token && r.provider == provider) = false := by
    intro r hr
    simp [beq_eq_false_iff_ne.mpr (hfresh r hr)]
  have hpred2 : ∀ r ∈ db,
      (r.state == token && r.provider == p2) = false := by
    intro r hr
    simp [beq_eq_false_iff_ne.mpr (hfresh r hr)]
  have hnone : db.find?
      (fun s => s.state == token && s.provider == provider) = none :=
    List.find?_eq_none.mpr (fun r hr => by simp [hpred r hr])
  have hnone2 : db.find?
      (fun s => s.state == token && s.provider == p2) = none :=
    List.find?_eq_none.mpr (fun r hr => by simp [hpred2 r hr])
  have hfind : ((generate_state db provider user_id token now).2).find?
      (fun s => s.state == token && s.provider == provider)
      = some { state := token, provider := provider, user_id := user_id,
               created_at := now, expires_at := now + stateLifetime } := by
    unfold generate_state
    rw [List.find?_append, hnone]
    simp [List.find?]
  constructor
  · simp only [verify_state, hfind, if_neg hnotexp]
    unfold generate_state
    rw [eraseFirstP_append_left _ _ _ hpred]
    simp [eraseFirstP]
  · unfold verify_state
    rw [hnone2]

/-- Instance of `state_single_use` at a concrete mint and verification. -/
theorem state_single_use_run :
    verify_state (generate_state [] "google" (some 7) "tk0" 0).2
      "tk0" "google" 100 = (.ok (some 7), []) ∧
    verify_state [] "tk0" "google" 200 = (.invalidState, []) :=
  state_single_use [] "google" (some 7) "tk0" 0 100 200 "google"
    (by intro r hr; cases hr) (by decide)

/-- Claim C6: a token minted for provider A always fails `verify_state` when
checked against a different provider B with the invalid-state error; the
stored linking user id is not returned and the table is untouched. -/
theorem state_cross_provider (db : List SSOState) (provA provB : String)
    (user_id : Option Int) (token : String) (now t1 : Nat)
    (hfresh : ∀ r ∈ db, r.state ≠ token)
    (hne : provA ≠ provB) :
    verify_state (generate_state db provA user_id token now).2
      token provB t1
      = (.invalidState, (generate_state db provA user_id token now).2) := by
  have hpred : ∀ r ∈ db,
      (r.state == token && r.provider == provB) = false := by
    intro r hr
    simp [beq_eq_false_iff_ne.mpr (hfresh r hr)]
  have hnone : db.find?
      (fun s => s.state == token && s.provider == provB) = none :=
    List.find?_eq_none.mpr (fun r hr => by simp [hpred r hr])
  unfold generate_state verify_state
  rw [List.find?_append, hnone]
  simp [beq_eq_false_iff_ne.mpr hne]

/-- Instance of `state_cross_provider`: a "google" state checked against
"github". -/
theorem state_cross_provider_run :
    verify_state (generate_state [] "google" none "tk1" 0).2
      "tk1" "github" 10
      = (.invalidState, (generate_state [] "google" none "tk1" 0).2) :=
  state_cross_provider [] "google" "github" none "tk1" 0 10
    (by intro r hr; cases hr) (by decide)

/-- Claim C9: `cleanup_expired_states` retains exactly the rows with
`expires_at ≥ now` — a row of the resulting table is a row of the input with
`¬ (expires_at < now)`, and conversely — and the returned count equals the
number of removed rows. -/
theorem sweep_expired_exact (db : List SSOState) (now : Nat) (r : SSOState) :
    (r ∈ (cleanup_expired_states db now).2 ↔
      r ∈ db ∧ ¬ (r.expires_at < now)) ∧
    (cleanup_expired_states db now).1 +
      ((cleanup_expired_states db now).2).length = db.length := by
  constructor
  · simp [cleanup_expired_states, List.mem_filter]
  · simp only [cleanup_expired_states]
    rw [← List.countP_eq_length_filter]
    exact countP_add_countP_not _ db

/-! ## Users, settings and the identity resolver
(backend/app/sso/user_management.py, backend/app/settings_helper.py) -/

/-- The fields of a `users` row (`User` in backend/app/database.py) this
subsystem reads or writes.  Integer-as-boolean columns (`is_active`,
`email_verified`, the permission flags) stay `Nat` as in the SQLite schema. -/
structure User where
  id : Nat
  username : String
  email : Option String
  hashed_password : String
  role : String
  is_active : Nat
  storage_quota_gb : Nat
  auth_provider : String
  external_id : Option String
  email_verified : Nat
  display_name : Option String
  last_login : Option Nat
  can_download_to_nas : Nat
  can_download_from_nas : Nat
  can_create_share_links : Nat
  can_view_public_board : Nat
  can_post_to_public_board : Nat
  can_use_telegram_bot : Nat
deriving DecidableEq

/-- The `system_settings` rows plus the process environment that
`get_setting` falls back to. -/
structure SettingsEnv where
  rows : List (String × String)
  env : String → Option String

/-- `str.lower()` character by character (the settings involved are ASCII;
`String.toLower` itself is avoided only because its recursion scheme does
not evaluate inside the kernel). -/
def asciiLower (s : String) : String := ⟨s.data.map Char.toLower⟩

/-- `str.upper()` character by character. -/
def asciiUpper (s : String) : String := ⟨s.data.map Char.toUpper⟩

/-- Python `s.split("@")[0]`: the prefix before the first `@`, or the whole
string when it contains no `@`. -/
def localPart (s : String) : String :=
  ⟨s.data.takeWhile (fun c => c != '@')⟩

/-- Python `c in s` for a single character. -/
def containsChar (s : String) (c : Char) : Bool := s.data.contains c

/-- `get_setting(db, key, default)` (backend/app/settings_helper.py):
database row first, then `os.getenv(key.upper())`, then the default. -/
def get_setting (se : SettingsEnv) (key : String) (dflt : Option String) :
    Option String :=
  match se.rows.find? (fun kv => kv.1 == key) with
  | some kv => some kv.2
  | none =>
    match se.env (asciiUpper key) with
    | some v => some v
    | none => dflt

/-- `get_bool_setting(db, key, default)`: the setting string (with
`str(default).lower()` as default) lowercased must be one of
"true", "1", "yes", "on". -/
def get_bool_setting (se : SettingsEnv) (key : String) (dflt : Bool) : Bool :=
  let v := (get_setting se key (some (if dflt then "true" else "false"))).getD ""
  asciiLower v == "true" || asciiLower v == "1" || asciiLower v == "yes" ||
    asciiLower v == "on"

/-- The dictionary a provider client's `get_user_info` returns, as consumed
by `create_or_get_user_from_sso` and `sso_callback`.  A `none` field models
a key that is absent (`dict.get` returns `None`). -/
structure UserInfo where
  email : Option String
  name : Option String
  username : Option String
  id : Option String
  verified_email : Option Bool
deriving DecidableEq

/-- Whether `candidate` collides with an existing display name or username
(the conflict query inside `generate_unique_display_name`). -/
def nameTaken (db : List User) (candidate : String) : Bool :=
  db.any (fun u => u.display_name == some candidate || u.username == candidate)

/-- The suffix loop of `generate_unique_display_name`: try each random
4-character suffix in turn (re-truncating the base when the candidate
overflows `maxLength`, as the source does), and fall back to the
timestamp-based suffix when all attempts collide. -/
def displayNameLoop (db : List User) (maxLength : Nat) :
    String → List String → String → String
  | base, [], tsuf =>
    let candidate := base ++ "_" ++ tsuf
    if candidate.length > maxLength then candidate.take maxLength else candidate
  | base, suffix :: rest, tsuf =>
    let candidate0 := base ++ "_" ++ suffix
    let base1 := if candidate0.length > maxLength
      then base.take (maxLength - 5) else base
    let candidate := if candidate0.length > maxLength
      then base1 ++ "_" ++ suffix else candidate0
    if ! nameTaken db candidate then candidate
    else displayNameLoop db maxLength base1 rest tsuf

/-- `generate_unique_display_name(db, base_name, max_length=20)`.  The random
suffixes drawn by `random.choices` (10 attempts in the source) and the
timestamp suffix are explicit parameters. -/
def generate_unique_display_name (db : List User) (base_name : String)
    (maxLength : Nat) (suffixes : List String) (tsuf : String) : String :=
  let base := if base_name.length > maxLength - 5
    then base_name.take (maxLength - 5) else base_name
  if ! nameTaken db base then base
  else displayNameLoop db maxLength base (suffixes.take 10) tsuf

/-- The exceptions `create_or_get_user_from_sso` raises. -/
inductive SSOResolveError where
  /-- `ValueError("Email is required from SSO provider")` -/
  | missingEmail
  /-- `Exception("SSO_ACCOUNT_PENDING_APPROVAL")` -/
  | pendingApproval
  /-- `Exception("Registration is disabled. ...")` -/
  | registrationDisabled
  /-- `Exception("SSO_ACCOUNT_CREATED_PENDING_APPROVAL")` (the row exists) -/
  | createdPendingApproval
deriving DecidableEq

/-- The values drawn inside `create_or_get_user_from_sso` that are external
to its logic: the new row id the database assigns, the hash of the random
unusable password, and the display-name suffix stream. -/
structure FreshData where
  newId : Nat
  password_hash : String
  suffixes : List String
  tsuf : String
deriving DecidableEq

/-- Step-1 lookup predicate: `auth_provider == provider AND
external_id == external_id`. -/
def exactMatch (provider external_id : String) (u : User) : Bool :=
  u.auth_provider == provider && u.external_id == some external_id

/-- `create_or_get_user_from_sso(db, provider, external_id, user_info)`:
1. exact `(auth_provider, external_id)` match → pending-approval check, then
   update `last_login` and return the account unchanged;
2. else an account with the identity's email (any provider) →
   pending-approval check, then re-point it to this provider, store the
   external id and verified flag, update `last_login`;
3. else fail if registration is disabled;
4. else create the account: the first-ever account gets role "super_admin",
   a 100 GB quota and is active; later accounts get the configured default
   role/quota, all permission flags 0 (inherit role default), and — when
   admin approval is required — `is_active = 0` plus a created-pending
   error raised after the row is committed.
`int()` on the quota settings is modelled as `String.toNat?` with failure
collapsed to 0; no claim exercises a non-numeric quota setting.  The unused
local `name` of the source is omitted. -/
def create_or_get_user_from_sso (db : List User) (se : SettingsEnv)
    (provider external_id : String) (info : UserInfo) (fresh : FreshData)
    (now : Nat) : Except SSOResolveError User × List User :=
  let email_verified := info.verified_email.getD true
  if info.email.getD "" == "" then (.error .missingEmail, db)
  else
    let email := info.email.getD ""
    match db.find? (exactMatch provider external_id) with
    | some u =>
      if u.is_active == 0 then (.error .pendingApproval, db)
      else
        (.ok { u with last_login := some now },
         updateFirstP (exactMatch provider external_id)
           (fun v => { v with last_login := some now }) db)
    | none =>
      match db.find? (fun u => u.email == some email) with
      | some u =>
        if u.is_active == 0 then (.error .pendingApproval, db)
        else
          let upd := fun v : User =>
            { v with auth_provider := provider,
                     external_id := some external_id,
                     email_verified := if email_verified then 1 else 0,
                     last_login := some now }
          (.ok (upd u), updateFirstP (fun v => v.email == some email) upd db)
      | none =>
        if ! get_bool_setting se "allow_registration" true then
          (.error .registrationDisabled, db)
        else
          let is_first := db.length == 0
          let role := if is_first then "super_admin"
            else (get_setting se "default_user_role" (some "user")).getD ""
          let quota := if is_first then 100
            else if role == "admin" then
              ((get_setting se "admin_quota_gb" (some "10")).getD
                "").toNat?.getD 0
            else
              ((get_setting se "default_user_quota_gb" (some "1")).getD
                "").toNat?.getD 0
          let base := if email == "" then "user" else localPart email
          let dname :=
            generate_unique_display_name db base 20 fresh.suffixes fresh.tsuf
          let require_approval :=
            get_bool_setting se "require_admin_approval" false
          let is_active : Nat := if is_first then 1
            else if require_approval then 0 else 1
          let newUser : User :=
            { id := fresh.newId, username := email, email := some email,
              hashed_password := fresh.password_hash, role := role,
              is_active := is_active, storage_quota_gb := quota,
              auth_provider := provider, external_id := some external_id,
              email_verified := if email_verified then 1 else 0,
              display_name := some dname, last_login := some now,
              can_download_to_nas := 0, can_download_from_nas := 0,
              can_create_share_links := 0, can_view_public_board := 0,
              can_post_to_public_board := 0, can_use_telegram_bot := 0 }
          if is_active == 0 then (.error .createdPendingApproval, db ++ [newUser])
          else (.ok newUser, db ++ [newUser])

/-! ### Fixtures for concrete runs -/

/-- A local-auth account holding the email `a@x.com`. -/
def u1ex : User :=
  { id := 1, username := "alice", email := some "a@x.com",
    hashed_password := "h1", role := "user", is_active := 1,
    storage_quota_gb := 1, auth_provider := "local", external_id := none,
    email_verified := 0, display_name := none, last_login := none,
    can_download_to_nas := 0, can_download_from_nas := 0,
    can_create_share_links := 0, can_view_public_board := 0,
    can_post_to_public_board := 0, can_use_telegram_bot := 0 }

/-- An account already linked to `("google", "g-1")`, different email. -/
def u2ex : User :=
  { id := 2, username := "bob", email := some "b@y.com",
    hashed_password := "h2", role := "user", is_active := 1,
    storage_quota_gb := 1, auth_provider := "google",
    external_id := some "g-1", email_verified := 1, display_name := none,
    last_login := none,
    can_download_to_nas := 0, can_download_from_nas := 0,
    can_create_share_links := 0, can_view_public_board := 0,
    can_post_to_public_board := 0, can_use_telegram_bot := 0 }

/-- Empty settings table, empty environment. -/
def se0 : SettingsEnv := { rows := [], env := fun _ => none }

/-- Settings with registration administratively disabled. -/
def seRegOff : SettingsEnv :=
  { rows := [("allow_registration", "false")], env := fun _ => none }

/-- Settings with a non-default role and admin approval required. -/
def seApproval : SettingsEnv :=
  { rows := [("default_user_role", "guest"), ("require_admin_approval", "true")],
    env := fun _ => none }

/-- The Google identity carrying the email `a@x.com` and external id `g-1`. -/
def infoA : UserInfo :=
  { email := some "a@x.com", name := some "Alice", username := none,
    id := some "g-1", verified_email := some true }

/-- An identity with the email `root@x.com`. -/
def infoRoot : UserInfo :=
  { email := some "root@x.com", name := none, username := none,
    id := some "g-9", verified_email := some true }

/-- Concrete fresh values for a created row. -/
def freshEx : FreshData :=
  { newId := 3, password_hash := "hp", suffixes := [], tsuf := "0000" }

/-- The account created by resolving `infoRoot` over an empty store with
`freshEx` at time 50 (`seApproval` settings). -/
def firstUserW : User :=
  { id := 3, username := "root@x.com", email := some "root@x.com",
    hashed_password := "hp", role := "super_admin", is_active := 1,
    storage_quota_gb := 100, auth_provider := "google",
    external_id := some "g-9", email_verified := 1,
    display_name := some "root", last_login := some 50,
    can_download_to_nas := 0, can_download_from_nas := 0,
    can_create_share_links := 0, can_view_public_board := 0,
    can_post_to_public_board := 0, can_use_telegram_bot := 0 }

/-! ### Resolver claims -/

/-- Claim C8: when an active account exactly matches the incoming
`(auth_provider, external_id)` pair, repeat resolution succeeds and returns
that account with every field unchanged except `last_login`: id, email,
username, role, auth provider, external id, email-verified flag, quota and
all per-feature permission flags are not overwritten from the identity data;
the store keeps its size and every row of the new store is either the
updated account or an untouched old row. -/
theorem repeat_login_frame (db : List User) (se : SettingsEnv)
    (provider external_id : String) (info : UserInfo) (fresh : FreshData)
    (now : Nat) (u : User) (e : String)
    (hemail : info.email = some e) (hne : e ≠ "")
    (hfind : db.find? (exactMatch provider external_id) = some u)
    (hactive : u.is_active ≠ 0) :
    ∃ u2,
      (create_or_get_user_from_sso db se provider external_id info fresh
        now).1 = .ok u2 ∧
      u2.id = u.id ∧ u2.email = u.email ∧ u2.username = u.username ∧
      u2.role = u.role ∧ u2.auth_provider = u.auth_provider ∧
      u2.external_id = u.external_id ∧
      u2.email_verified = u.email_verified ∧
      u2.storage_quota_gb = u.storage_quota_gb ∧
      u2.can_download_to_nas = u.can_download_to_nas ∧
      u2.can_download_from_nas = u.can_download_from_nas ∧
      u2.can_create_share_links = u.can_create_share_links ∧
      u2.can_view_public_board = u.can_view_public_board ∧
      u2.can_post_to_public_board = u.can_post_to_public_board ∧
      u2.can_use_telegram_bot = u.can_use_telegram_bot ∧
      u2.last_login = some now ∧
      (create_or_get_user_from_sso db se provider external_id info fresh
        now).2.length = db.length ∧
      ∀ v ∈ (create_or_get_user_from_sso db se provider external_id info
        fresh now).2, v = u2 ∨ v ∈ db := by
  have hbeq : (e == "") = false := beq_eq_false_iff_ne.mpr hne
  have hact : (u.is_active == 0) = false := beq_eq_false_iff_ne.mpr hactive
  refine ⟨{ u with last_login := some now }, ?_, rfl, rfl, rfl, rfl, rfl,
    rfl, rfl, rfl, rfl, rfl, rfl, rfl, rfl, rfl, rfl, ?_, ?_⟩
  · simp [create_or_get_user_from_sso, hemail, hbeq, hfind, hact]
  · simp [create_or_get_user_from_sso, hemail, hbeq, hfind, hact,
      updateFirstP_length]
  · intro v hv
    simp only [create_or_get_user_from_sso, hemail, Option.getD_some, hbeq,
      Bool.false_eq_true, if_false, hfind, hact] at hv
    exact mem_updateFirstP_of_find? _ _ db u hfind v hv

/-- Instance of `repeat_login_frame` on a one-account store. -/
theorem repeat_login_frame_run :
    ∃ u2,
      (create_or_get_user_from_sso [u2ex] se0 "google" "g-1" infoA freshEx
        77).1 = .ok u2 ∧
      u2.id = u2ex.id ∧ u2.email = u2ex.email ∧ u2.username = u2ex.username ∧
      u2.role = u2ex.role ∧ u2.auth_provider = u2ex.auth_provider ∧
      u2.external_id = u2ex.external_id ∧
      u2.email_verified = u2ex.email_verified ∧
      u2.storage_quota_gb = u2ex.storage_quota_gb ∧
      u2.can_download_to_nas = u2ex.can_download_to_nas ∧
      u2.can_download_from_nas = u2ex.can_download_from_nas ∧
      u2.can_create_share_links = u2ex.can_create_share_links ∧
      u2.can_view_public_board = u2ex.can_view_public_board ∧
      u2.can_post_to_public_board = u2ex.can_post_to_public_board ∧
      u2.can_use_telegram_bot = u2ex.can_use_telegram_bot ∧
      u2.last_login = some 77 ∧
      (create_or_get_user_from_sso [u2ex] se0 "google" "g-1" infoA freshEx
        77).2.length = [u2ex].length ∧
      ∀ v ∈ (create_or_get_user_from_sso [u2ex] se0 "google" "g-1" infoA
        freshEx 77).2, v = u2 ∨ v ∈ [u2ex] :=
  repeat_login_frame [u2ex] se0 "google" "g-1" infoA freshEx 77 u2ex
    "a@x.com" rfl (by decide) (by decide) (by decide)

/-- Counterexample to claim C2 as stated: the store holds `u1ex` (active,
email `a@x.com`, local auth, so its `(auth_provider, external_id)` pair does
not match `("google", "g-1")`) and `u2ex` (already linked to
`("google", "g-1")`).  A Google login with email `a@x.com` and external id
`g-1` is resolved by the exact-match step: it returns `u2ex` (id 2, not
`u1ex`'s id 1) and leaves `u1ex` completely unchanged in the store — the
email-matching account is not mutated. -/
theorem email_match_shadowed_by_exact_cex :
    (create_or_get_user_from_sso [u1ex, u2ex] se0 "google" "g-1" infoA
      freshEx 50).1 = .ok { u2ex with last_login := some 50 } ∧
    (create_or_get_user_from_sso [u1ex, u2ex] se0 "google" "g-1" infoA
      freshEx 50).2 = [u1ex, { u2ex with last_login := some 50 }] ∧
    u1ex.email = infoA.email ∧ u1ex.is_active = 1 ∧
    exactMatch "google" "g-1" u1ex = false ∧
    ({ u2ex with last_login := some 50 } : User).id ≠ u1ex.id ∧
    ({ u2ex with last_login := some 50 } : User).auth_provider ≠
      u1ex.auth_provider := by
  refine ⟨rfl, rfl, by decide, by decide, by decide, by decide, by decide⟩

/-- Claim C2 (amended): provided additionally that no account in the store
exactly matches the incoming `(provider, external_id)` pair, resolving the
SSO login mutates the (first) active account whose email equals the
identity's email — same id, `auth_provider := provider`,
`external_id := external_id`, `email_verified` taken from the identity,
`last_login` updated — returns it, and creates no new account. -/
theorem email_match_relink (db : List User) (se : SettingsEnv)
    (provider external_id : String) (info : UserInfo) (fresh : FreshData)
    (now : Nat) (u : User) (e : String)
    (hemail : info.email = some e) (hne : e ≠ "")
    (hnoexact : ∀ v ∈ db, exactMatch provider external_id v = false)
    (hfind : db.find? (fun v => v.email == some e) = some u)
    (hactive : u.is_active ≠ 0) :
    ∃ u2,
      (create_or_get_user_from_sso db se provider external_id info fresh
        now).1 = .ok u2 ∧
      u2.id = u.id ∧ u2.auth_provider = provider ∧
      u2.external_id = some external_id ∧
      u2.email_verified = (if info.verified_email.getD true then 1 else 0) ∧
      u2.last_login = some now ∧ u2.email = u.email ∧
      u2.username = u.username ∧
      (create_or_get_user_from_sso db se provider external_id info fresh
        now).2.length = db.length ∧
      ∀ v ∈ (create_or_get_user_from_sso db se provider external_id info
        fresh now).2, v = u2 ∨ v ∈ db := by
  have hbeq : (e == "") = false := beq_eq_false_iff_ne.mpr hne
  have hact : (u.is_active == 0) = false := beq_eq_false_iff_ne.mpr hactive
  have hnone : db.find? (exactMatch provider external_id) = none :=
    List.find?_eq_none.mpr (fun v hv => by simp [hnoexact v hv])
  refine ⟨{ u with
      auth_provider := provider,
      external_id := some external_id,
      email_verified := if info.verified_email.getD true then 1 else 0,
      last_login := some now }, ?_, rfl, rfl, rfl, rfl, rfl, rfl, rfl,
    ?_, ?_⟩
  · simp [create_or_get_user_from_sso, hemail, hbeq, hnone, hfind, hact]
  · simp [create_or_get_user_from_sso, hemail, hbeq, hnone, hfind, hact,
      updateFirstP_length]
  · intro v hv
    simp only [create_or_get_user_from_sso, hemail, Option.getD_some, hbeq,
      Bool.false_eq_true, if_false, hnone, hfind, hact] at hv
    exact mem_updateFirstP_of_find? _ _ db u hfind v hv

/-- Instance of `email_match_relink`: the spec scenario — `u1ex` has email
`a@x.com` and local auth; a Google login with that email and external id
`g-1` re-points `u1ex` to Google. -/
theorem email_match_relink_run :
    ∃ u2,
      (create_or_get_user_from_sso [u1ex] se0 "google" "g-1" infoA freshEx
        50).1 = .ok u2 ∧
      u2.id = u1ex.id ∧ u2.auth_provider = "google" ∧
      u2.external_id = some "g-1" ∧
      u2.email_verified = (if infoA.verified_email.getD true then 1 else 0) ∧
      u2.last_login = some 50 ∧ u2.email = u1ex.email ∧
      u2.username = u1ex.username ∧
      (create_or_get_user_from_sso [u1ex] se0 "google" "g-1" infoA freshEx
        50).2.length = [u1ex].length ∧
      ∀ v ∈ (create_or_get_user_from_sso [u1ex] se0 "google" "g-1" infoA
        freshEx 50).2, v = u2 ∨ v ∈ [u1ex] :=
  email_match_relink [u1ex] se0 "google" "g-1" infoA freshEx 50 u1ex
    "a@x.com" rfl (by decide) (by decide) (by decide) (by decide)

/-- Claim C5: with no exact `(provider, external_id)` match, no account
holding the identity's email, and registration administratively disabled,
resolution fails with the registration-disabled error and the account store
is returned unchanged — zero new rows. -/
theorem registration_disabled_no_rows (db : List User) (se : SettingsEnv)
    (provider external_id : String) (info : UserInfo) (fresh : FreshData)
    (now : Nat) (e : String)
    (hemail : info.email = some e) (hne : e ≠ "")
    (hnoexact : ∀ v ∈ db, exactMatch provider external_id v = false)
    (hnoemail : ∀ v ∈ db, (v.email == some e) = false)
    (hreg : get_bool_setting se "allow_registration" true = false) :
    create_or_get_user_from_sso db se provider external_id info fresh now
      = (.error .registrationDisabled, db) := by
  have hbeq : (e == "") = false := beq_eq_false_iff_ne.mpr hne
  have h1 : db.find? (exactMatch provider external_id) = none :=
    List.find?_eq_none.mpr (fun v hv => by simp [hnoexact v hv])
  have h2 : db.find? (fun v => v.email == some e) = none :=
    List.find?_eq_none.mpr (fun v hv => by simp [hnoemail v hv])
  simp [create_or_get_user_from_sso, hemail, hbeq, h1, h2, hreg]

/-- Instance of `registration_disabled_no_rows` on a one-account store and
the `allow_registration = "false"` setting. -/
theorem registration_disabled_no_rows_run :
    create_or_get_user_from_sso [u2ex] seRegOff "github" "z-1" infoRoot
      freshEx 9 = (.error .registrationDisabled, [u2ex]) :=
  registration_disabled_no_rows [u2ex] seRegOff "github" "z-1" infoRoot
    freshEx 9 "root@x.com" rfl (by decide) (by decide) (by decide)
    (by decide)

/-- Claim C3: whenever resolution over an empty account store succeeds in
creating an account — for every settings table, in particular every
configured default role and every registration/approval policy — the created
account has role "super_admin", the 100 GB quota, and is active; with
registration disabled over an empty store, creation is never reached (see
`registration_disabled_no_rows`), so the success hypothesis captures exactly
the reachable first-ever creations. -/
theorem first_user_top_role (se : SettingsEnv)
    (provider external_id : String) (info : UserInfo) (fresh : FreshData)
    (now : Nat) (e : String) (u : User)
    (hemail : info.email = some e) (hne : e ≠ "")
    (hok : (create_or_get_user_from_sso [] se provider external_id info
      fresh now).1 = .ok u) :
    u.role = "super_admin" ∧ u.storage_quota_gb = 100 ∧ u.is_active = 1 ∧
    (create_or_get_user_from_sso [] se provider external_id info fresh
      now).2 = [u] := by
  have hbeq : (e == "") = false := beq_eq_false_iff_ne.mpr hne
  by_cases hreg : get_bool_setting se "allow_registration" true
  · simp [create_or_get_user_from_sso, hemail, hbeq, hreg] at hok ⊢
    obtain rfl := hok.symm
    simp
  · simp [create_or_get_user_from_sso, hemail, hbeq, hreg] at hok

/-- Instance of `first_user_top_role` with a configured default role
"guest" and admin approval required: the first account is still
super_admin/100 GB/active. -/
theorem first_user_top_role_run :
    firstUserW.role = "super_admin" ∧ firstUserW.storage_quota_gb = 100 ∧
    firstUserW.is_active = 1 ∧
    (create_or_get_user_from_sso [] seApproval "google" "g-9" infoRoot
      freshEx 50).2 = [firstUserW] :=
  first_user_top_role seApproval "google" "g-9" infoRoot freshEx 50
    "root@x.com" firstUserW rfl (by decide) rfl

/-! ## Unlink endpoint (backend/app/sso.py, `unlink_sso_account`) -/

/-- Outcome of `POST /sso/{provider}/unlink`: the success payload's message,
or an `HTTPException` with its status code and detail. -/
inductive UnlinkResult where
  | success (message : String)
  | httpError (status_code : Nat) (detail : String)
deriving DecidableEq

/-- `unlink_sso_account(provider, data, current_user)`:
* a provider that is not the account's `auth_provider` fails with the
  not-linked error (raised before the `try` block);
* inside the `try` block, an email-shaped username with no (or empty)
  `new_password` raises `HTTPException(400, "Password required. ...")` —
  but the surrounding blanket `except Exception` catches that very
  exception, rolls back, and re-raises it as
  `HTTPException(500, "Failed to unlink account. Please try again.")`;
* otherwise the optional new password is hashed and stored, the provider
  link is removed (`auth_provider = "local"`, `external_id = None`) and a
  success message returned.
The password hasher `get_password_hash` is an opaque parameter.  The
function returns the outcome together with the resulting account row
(unchanged on every error path, since nothing was committed). -/
def unlink_sso_account (current_user : User) (provider : String)
    (new_password : Option String) (hash : String → String) :
    UnlinkResult × User :=
  if current_user.auth_provider != provider then
    (.httpError 400 ("Your account is not linked to " ++ provider ++ "."),
     current_user)
  else
    if containsChar current_user.username '@' && new_password.getD "" == "" then
      (.httpError 500 "Failed to unlink account. Please try again.",
       current_user)
    else
      let user1 := if new_password.getD "" != "" then
          { current_user with hashed_password := hash (new_password.getD "") }
        else current_user
      let user2 := { user1 with auth_provider := "local", external_id := none }
      (.success ("Successfully unlinked " ++ provider ++
        " from your account"), user2)

/-- Claim C4 (observed divergence): an authenticated unlink on an account
whose username looks like an email (SSO-provisioned) and that supplies no
`new_password` does NOT fail with the 400 password-required error: the 400
`HTTPException` raised inside the `try` block is caught by the blanket
`except Exception` handler and re-raised as a 500 "Failed to unlink
account." error.  The claim's frame part holds: the account's
`auth_provider` and `external_id` are left unchanged by the failed call. -/
theorem unlink_email_username_no_password (current_user : User)
    (provider : String) (hash : String → String)
    (hlinked : current_user.auth_provider = provider)
    (hemail : containsChar current_user.username '@' = true) :
    unlink_sso_account current_user provider none hash
      = (.httpError 500 "Failed to unlink account. Please try again.",
         current_user) ∧
    (unlink_sso_account current_user provider none hash).2.auth_provider
      = current_user.auth_provider ∧
    (unlink_sso_account current_user provider none hash).2.external_id
      = current_user.external_id := by
  have h1 : (current_user.auth_provider != provider) = false := by
    simp [hlinked]
  refine ⟨?_, ?_, ?_⟩ <;> simp [unlink_sso_account, h1, hemail]

/-- Instance of `unlink_email_username_no_password` on the SSO-provisioned
account `firstUserW` (username `root@x.com`, provider "google"). -/
theorem unlink_email_username_no_password_run :
    unlink_sso_account firstUserW "google" none (fun s => s)
      = (.httpError 500 "Failed to unlink account. Please try again.",
         firstUserW) ∧
    (unlink_sso_account firstUserW "google" none
      (fun s => s)).2.auth_provider = firstUserW.auth_provider ∧
    (unlink_sso_account firstUserW "google" none
      (fun s => s)).2.external_id = firstUserW.external_id :=
  unlink_email_username_no_password firstUserW "google" (fun s => s)
    rfl (by decide)

/-! ## Provider clients: authorization URLs
(backend/app/sso/{google,github,microsoft,synology,authentik,generic_oidc}
_provider.py) -/

/-- The constructor arguments of `OAuth2Provider.__init__`. -/
structure OAuth2Config where
  client_id : String
  client_secret : String
  redirect_uri : String
deriving DecidableEq

/-- One byte of `urllib.parse.quote_plus` output: letters, digits and
`_.-~` pass through, a space becomes `+`, anything else is `%XX` with
uppercase hex over the UTF-8 encoding. -/
def quotePlusByte (b : UInt8) : String :=
  if b == 32 then "+"
  else if (48 ≤ b && b ≤ 57) || (65 ≤ b && b ≤ 90) || (97 ≤ b && b ≤ 122) ||
      b == 95 || b == 46 || b == 45 || b == 126 then
    String.singleton (Char.ofNat b.toNat)
  else
    let hex := fun n : Nat =>
      if n < 10 then Char.ofNat (48 + n) else Char.ofNat (55 + n)
    "%" ++ String.singleton (hex (b.toNat / 16)) ++
      String.singleton (hex (b.toNat % 16))

/-- `urllib.parse.quote_plus` over the string's UTF-8 bytes. -/
def quote_plus (s : String) : String :=
  String.join ((s.toUTF8.toList).map quotePlusByte)

/-- `urllib.parse.urlencode` of an ordered parameter dictionary. -/
def urlencode (ps : List (String × String)) : String :=
  String.intercalate "&" (ps.map (fun kv => quote_plus kv.1 ++ "=" ++
    quote_plus kv.2))

namespace GoogleProvider

def AUTHORIZATION_URL : String := "https://accounts.google.com/o/oauth2/v2/auth"

def SCOPES : String := "openid email profile"

/-- The `params` dictionary of `GoogleProvider.get_authorization_url`, in
insertion order. -/
def authorization_params (cfg : OAuth2Config) (state : String) :
    List (String × String) :=
  [("client_id", cfg.client_id), ("redirect_uri", cfg.redirect_uri),
   ("response_type", "code"), ("scope", SCOPES), ("state", state),
   ("access_type", "online"), ("prompt", "select_account")]

def get_authorization_url (cfg : OAuth2Config) (state : String) : String :=
  AUTHORIZATION_URL ++ "?" ++ urlencode (authorization_params cfg state)

end GoogleProvider

namespace GitHubProvider

def AUTHORIZATION_URL : String := "https://github.com/login/oauth/authorize"

def SCOPES : String := "read:user user:email"

/-- The `params` dictionary of `GitHubProvider.get_authorization_url`:
note that, unlike every other provider, it contains no `response_type`. -/
def authorization_params (cfg : OAuth2Config) (state : String) :
    List (String × String) :=
  [("client_id", cfg.client_id), ("redirect_uri", cfg.redirect_uri),
   ("scope", SCOPES), ("state", state), ("allow_signup", "true")]

def get_authorization_url (cfg : OAuth2Config) (state : String) : String :=
  AUTHORIZATION_URL ++ "?" ++ urlencode (authorization_params cfg state)

end GitHubProvider

namespace MicrosoftProvider

def AUTHORIZATION_URL : String :=
  "https://login.microsoftonline.com/common/oauth2/v2.0/authorize"

def SCOPES : String := "openid email profile User.Read"

def authorization_params (cfg : OAuth2Config) (state : String) :
    List (String × String) :=
  [("client_id", cfg.client_id), ("redirect_uri", cfg.redirect_uri),
   ("response_type", "code"), ("scope", SCOPES), ("state", state),
   ("response_mode", "query")]

def get_authorization_url (cfg : OAuth2Config) (state : String) : String :=
  AUTHORIZATION_URL ++ "?" ++ urlencode (authorization_params cfg state)

end MicrosoftProvider

namespace SynologyProvider

def SCOPES : String := "openid email profile"

def authorization_params (cfg : OAuth2Config) (state : String) :
    List (String × String) :=
  [("client_id", cfg.client_id), ("redirect_uri", cfg.redirect_uri),
   ("response_type", "code"), ("scope", SCOPES), ("state", state)]

/-- `self.authorization_url` comes from the administrator-supplied or
discovered endpoint configuration; it is a parameter here. -/
def get_authorization_url (cfg : OAuth2Config) (authorization_url : String)
    (state : String) : String :=
  authorization_url ++ "?" ++ urlencode (authorization_params cfg state)

end SynologyProvider

namespace AuthentikProvider

def SCOPES : String := "openid email profile"

def authorization_params (cfg : OAuth2Config) (state : String) :
    List (String × String) :=
  [("client_id", cfg.client_id), ("redirect_uri", cfg.redirect_uri),
   ("response_type", "code"), ("scope", SCOPES), ("state", state)]

/-- The endpoint resolved from the domain/slug defaults, explicit settings
or OIDC discovery is a parameter here. -/
def get_authorization_url (cfg : OAuth2Config) (authorization_url : String)
    (state : String) : String :=
  authorization_url ++ "?" ++ urlencode (authorization_params cfg state)

end AuthentikProvider

namespace GenericOIDCProvider

def DEFAULT_SCOPES : String := "openid email profile"

/-- `self.scopes` (administrator-configured, defaulting to
`DEFAULT_SCOPES`) is a parameter. -/
def authorization_params (cfg : OAuth2Config) (scopes state : String) :
    List (String × String) :=
  [("client_id", cfg.client_id), ("redirect_uri", cfg.redirect_uri),
   ("response_type", "code"), ("scope", scopes), ("state", state)]

/-- The discovered or manually configured `authorization_endpoint` is a
parameter. -/
def get_authorization_url (cfg : OAuth2Config)
    (authorization_endpoint scopes state : String) : String :=
  authorization_endpoint ++ "?" ++
    urlencode (authorization_params cfg scopes state)

end GenericOIDCProvider

/-- A concrete provider configuration. -/
def cfgEx : OAuth2Config :=
  { client_id := "cid", client_secret := "sec",
    redirect_uri := "https://app/cb" }

/-- Counterexample to claim C7 as stated: GitHub's authorization parameters
at a concrete configuration and state contain no `response_type` at all —
in particular not `response_type=code` — even though `client_id`,
`redirect_uri`, `scope` and `state` are all present. -/
theorem github_missing_response_type_cex :
    (GitHubProvider.authorization_params cfgEx "s1").lookup "response_type"
      = none ∧
    ("response_type", "code") ∉ GitHubProvider.authorization_params cfgEx "s1" ∧
    ("client_id", "cid") ∈ GitHubProvider.authorization_params cfgEx "s1" ∧
    ("state", "s1") ∈ GitHubProvider.authorization_params cfgEx "s1" := by
  refine ⟨rfl, by decide, by decide, by decide⟩

/-- Claim C7 (amended): for every configuration and state, the authorization
URL's parameter dictionary of each provider variant contains `client_id`,
`redirect_uri`, `scope` and `state` (with `state` the given string); every
variant except GitHub also contains `response_type=code`, while GitHub's
dictionary holds no `response_type` key at all. -/
theorem auth_url_params (cfg : OAuth2Config) (scopes state : String) :
    (("client_id", cfg.client_id) ∈ GoogleProvider.authorization_params cfg state ∧
     ("redirect_uri", cfg.redirect_uri) ∈ GoogleProvider.authorization_params cfg state ∧
     ("response_type", "code") ∈ GoogleProvider.authorization_params cfg state ∧
     ("scope", GoogleProvider.SCOPES) ∈ GoogleProvider.authorization_params cfg state ∧
     ("state", state) ∈ GoogleProvider.authorization_params cfg state) ∧
    (("client_id", cfg.client_id) ∈ MicrosoftProvider.authorization_params cfg state ∧
     ("redirect_uri", cfg.redirect_uri) ∈ MicrosoftProvider.authorization_params cfg state ∧
     ("response_type", "code") ∈ MicrosoftProvider.authorization_params cfg state ∧
     ("scope", MicrosoftProvider.SCOPES) ∈ MicrosoftProvider.authorization_params cfg state ∧
     ("state", state) ∈ MicrosoftProvider.authorization_params cfg state) ∧
    (("client_id", cfg.client_id) ∈ SynologyProvider.authorization_params cfg state ∧
     ("redirect_uri", cfg.redirect_uri) ∈ SynologyProvider.authorization_params cfg state ∧
     ("response_type", "code") ∈ SynologyProvider.authorization_params cfg state ∧
     ("scope", SynologyProvider.SCOPES) ∈ SynologyProvider.authorization_params cfg state ∧
     ("state", state) ∈ SynologyProvider.authorization_params cfg state) ∧
    (("client_id", cfg.client_id) ∈ AuthentikProvider.authorization_params cfg state ∧
     ("redirect_uri", cfg.redirect_uri) ∈ AuthentikProvider.authorization_params cfg state ∧
     ("response_type", "code") ∈ AuthentikProvider.authorization_params cfg state ∧
     ("scope", AuthentikProvider.SCOPES) ∈ AuthentikProvider.authorization_params cfg state ∧
     ("state", state) ∈ AuthentikProvider.authorization_params cfg state) ∧
    (("client_id", cfg.client_id) ∈ GenericOIDCProvider.authorization_params cfg scopes state ∧
     ("redirect_uri", cfg.redirect_uri) ∈ GenericOIDCProvider.authorization_params cfg scopes state ∧
     ("response_type", "code") ∈ GenericOIDCProvider.authorization_params cfg scopes state ∧
     ("scope", scopes) ∈ GenericOIDCProvider.authorization_params cfg scopes state ∧
     ("state", state) ∈ GenericOIDCProvider.authorization_params cfg scopes state) ∧
    (("client_id", cfg.client_id) ∈ GitHubProvider.authorization_params cfg state ∧
     ("redirect_uri", cfg.redirect_uri) ∈ GitHubProvider.authorization_params cfg state ∧
     ("scope", GitHubProvider.SCOPES) ∈ GitHubProvider.authorization_params cfg state ∧
     ("state", state) ∈ GitHubProvider.authorization_params cfg state ∧
     (GitHubProvider.authorization_params cfg state).lookup "response_type"
       = none) := by
  refine ⟨⟨?_, ?_, ?_, ?_, ?_⟩, ⟨?_, ?_, ?_, ?_, ?_⟩, ⟨?_, ?_, ?_, ?_, ?_⟩,
    ⟨?_, ?_, ?_, ?_, ?_⟩, ⟨?_, ?_, ?_, ?_, ?_⟩, ⟨?_, ?_, ?_, ?_, ?_⟩⟩ <;>
    simp [GoogleProvider.authorization_params,
      MicrosoftProvider.authorization_params,
      SynologyProvider.authorization_params,
      AuthentikProvider.authorization_params,
      GenericOIDCProvider.authorization_params,
      GitHubProvider.authorization_params, List.lookup]

/-! ## Provider clients: userinfo field mapping
(the pure mapping each `get_user_info` applies to the fetched JSON body) -/

/-- The keys the provider clients read from a userinfo HTTP response body.
A `none` field models a key that is absent from the JSON object
(`dict.get` returns `None`); a present-but-null value behaves the same at
every use site modelled here. -/
structure UserInfoJson where
  email : Option String
  name : Option String
  id : Option String
  sub : Option String
  user_id : Option String
  preferred_username : Option String
  username : Option String
  verified_email : Option Bool
  email_verified : Option Bool
  mail : Option String
  userPrincipalName : Option String
  displayName : Option String
deriving DecidableEq

/-- Python `a or b` on two optional strings: `a` unless it is `None` or
empty (falsy), else `b`. -/
def pyOrO (a b : Option String) : Option String :=
  if a.getD "" == "" then b else a

/-- Python `a or b` where the final fallback is a plain string. -/
def pyOrS (a : Option String) (b : String) : String :=
  if a.getD "" == "" then b else a.getD ""

/-- Python `str(x)` on a string-or-None value. -/
def pyStr (a : Option String) : String :=
  match a with
  | some s => s
  | none => "None"

namespace GoogleProvider

/-- The dictionary `GoogleProvider.get_user_info` returns for a fetched
userinfo body: note `verified_email` defaults to FALSE when the key is
absent (`user_data.get("verified_email", False)`). -/
def get_user_info (j : UserInfoJson) : UserInfo :=
  { email := j.email,
    name := some (match j.name with
      | some n => n
      | none => localPart (j.email.getD "")),
    username := none,
    id := j.id,
    verified_email := some (j.verified_email.getD false) }

end GoogleProvider

namespace MicrosoftProvider

/-- `MicrosoftProvider.get_user_info`: email is `mail` or
`userPrincipalName`; `verified_email` is always True. -/
def get_user_info (j : UserInfoJson) : UserInfo :=
  let email := pyOrO j.mail j.userPrincipalName
  { email := email,
    name := some (match j.displayName with
      | some n => n
      | none => if email.getD "" == "" then "User"
                else localPart (email.getD "")),
    username := none,
    id := j.id,
    verified_email := some true }

end MicrosoftProvider

namespace SynologyProvider

/-- `SynologyProvider.get_user_info`: OIDC-style claims, `verified_email`
always True. -/
def get_user_info (j : UserInfoJson) : UserInfo :=
  let username := pyOrO j.username j.preferred_username
  let user_id := pyOrO j.sub username
  { email := j.email,
    name := some (pyOrS j.name (pyOrS username
      (if j.email.getD "" == "" then "User"
       else localPart (j.email.getD "")))),
    username := username,
    id := user_id,
    verified_email := some true }

end SynologyProvider

namespace AuthentikProvider

/-- `AuthentikProvider.get_user_info`: OIDC claims; `verified_email` is
`email_verified` defaulting to True when absent. -/
def get_user_info (j : UserInfoJson) : UserInfo :=
  let username := pyOrO j.preferred_username j.username
  let user_id := pyOrO j.sub username
  { email := j.email,
    name := some (pyOrS j.name (pyOrS username
      (if j.email.getD "" == "" then "User"
       else localPart (j.email.getD "")))),
    username := username,
    id := user_id,
    verified_email := some (j.email_verified.getD true) }

end AuthentikProvider

namespace GenericOIDCProvider

/-- `GenericOIDCProvider.get_user_info`: standard OIDC claims; the id falls
back through `sub`, `id`, `user_id` and `email` and is passed through
`str()`; `verified_email` is `email_verified` defaulting to True. -/
def get_user_info (j : UserInfoJson) : UserInfo :=
  let email := j.email
  let username := pyOrO j.preferred_username j.username
  { email := email,
    name := some (pyOrS j.name (pyOrS username
      (if email.getD "" == "" then "User" else localPart (email.getD "")))),
    username := username,
    id := some (pyStr (pyOrO j.sub (pyOrO j.id (pyOrO j.user_id email)))),
    verified_email := some (j.email_verified.getD true) }

end GenericOIDCProvider

/-- The broker's normalization step in `sso_callback` (backend/app/sso.py):
`email_verified = user_info.get("verified_email", True)` — the general
default for a missing verified flag is True. -/
def callback_email_verified (info : UserInfo) : Bool :=
  info.verified_email.getD true

/-- Claim C10: a userinfo response body that carries no verified-email
claim at all is normalized by the Google client to `verified_email =
False`, so the broker treats the Google identity as unverified — unlike the
broker's general default of True for a missing verified flag, under which
the very same response shape from the generic-OIDC, Authentik, Synology and
Microsoft clients is treated as verified. -/
theorem google_unverified_by_default (j : UserInfoJson)
    (h1 : j.verified_email = none) (h2 : j.email_verified = none) :
    callback_email_verified (GoogleProvider.get_user_info j) = false ∧
    callback_email_verified (GenericOIDCProvider.get_user_info j) = true ∧
    callback_email_verified (AuthentikProvider.get_user_info j) = true ∧
    callback_email_verified (SynologyProvider.get_user_info j) = true ∧
    callback_email_verified (MicrosoftProvider.get_user_info j) = true := by
  refine ⟨?_, ?_, ?_, ?_, ?_⟩ <;>
    simp [callback_email_verified, GoogleProvider.get_user_info,
      GenericOIDCProvider.get_user_info, AuthentikProvider.get_user_info,
      SynologyProvider.get_user_info, MicrosoftProvider.get_user_info,
      h1, h2]

/-- A userinfo body with an email and external id but no verified-email
claim of either spelling. -/
def jNoFlag : UserInfoJson :=
  { email := some "a@x.com", name := some "A", id := some "g-1",
    sub := none, user_id := none, preferred_username := none,
    username := none, verified_email := none, email_verified := none,
    mail := none, userPrincipalName := none, displayName := none }

/-- Instance of `google_unverified_by_default` at `jNoFlag`. -/
theorem google_unverified_by_default_run :
    callback_email_verified (GoogleProvider.get_user_info jNoFlag) = false ∧
    callback_email_verified (GenericOIDCProvider.get_user_info jNoFlag)
      = true ∧
    callback_email_verified (AuthentikProvider.get_user_info jNoFlag)
      = true ∧
    callback_email_verified (SynologyProvider.get_user_info jNoFlag)
      = true ∧
    callback_email_verified (MicrosoftProvider.get_user_info jNoFlag)
      = true :=
  google_unverified_by_default jNoFlag rfl rfl

end VDN
